import Mathlib

/-!
Shallow embedding of the chit-fund ledger backend (Supabase edge functions)
and proofs of the spec claims about it.

The embedding translates the request handlers under `supabase/functions/`
(and the unnamed source parts holding `process-loan-request`,
`process-payment-proof`, `export-transactions`, `monthly-dues`) into pure
Lean functions over an explicit `State` record.  Each handler takes the
authenticated caller, its JSON-body arguments and the current wall-clock
date, and returns the HTTP-level response together with the post-state of
the relational store.  Database RPC routines that live in the database (not
in the repository source) are modelled from the spec and marked as such in
their doc comments.
-/

namespace ChitFund

/-- Calendar date, JS-`Date`-style: `ym` is the absolute month index
(`year * 12 + monthIndex`, month 0-based as in `new Date(y, m, d)`), `day`
is the 1-based day of month.  `new Date(y, m, 1)` normalises month overflow
exactly as `year * 12 + m` does. -/
structure DateYMD where
  ym : Int
  day : Nat
deriving DecidableEq, Repr

/-- `new Date(year, month, day)` (month 0-based, as in the JS sources). -/
def mkDate (year month : Int) (day : Nat) : DateYMD :=
  ⟨year * 12 + month, day⟩

/-- Gregorian leap-year test, as used by JS `Date` month lengths. -/
def isLeapYear (y : Int) : Bool :=
  decide (y % 4 = 0) && (decide (y % 100 ≠ 0) || decide (y % 400 = 0))

/-- Number of days in the month with absolute index `ym`. -/
def daysInMonth (ym : Int) : Nat :=
  let m := ym % 12
  let y := ym / 12
  if m = 1 then (if isLeapYear y then 29 else 28)
  else if m = 3 ∨ m = 5 ∨ m = 8 ∨ m = 10 then 30
  else 31

/-- `date-fns` `addMonths`: shift the month index, clamping the day of
month to the length of the target month. -/
def addMonths (d : DateYMD) (n : Int) : DateYMD :=
  let ym := d.ym + n
  ⟨ym, min d.day (daysInMonth ym)⟩

/-- JS `Date` comparison `d1 <= d2` (dates here never differ below days). -/
def dateLe (a b : DateYMD) : Bool :=
  decide (a.ym < b.ym) || (decide (a.ym = b.ym) && decide (a.day ≤ b.day))

/-- Month names for `toLocaleString('default', picking month: 'long')` and
the `date-fns` format pattern `MMMM`. -/
def monthName (m : Int) : String :=
  if m = 0 then "January" else if m = 1 then "February"
  else if m = 2 then "March" else if m = 3 then "April"
  else if m = 4 then "May" else if m = 5 then "June"
  else if m = 6 then "July" else if m = 7 then "August"
  else if m = 8 then "September" else if m = 9 then "October"
  else if m = 10 then "November" else "December"

/-- `MMMM yyyy` / `month: 'long', year: 'numeric'` rendering of a date. -/
def monthYearName (d : DateYMD) : String :=
  monthName (d.ym % 12) ++ " " ++ toString (d.ym / 12)

/-- Split a digit run into comma-separated pairs, grouped from the right
(an odd-length run starts with a single digit). -/
def pairSplit : List Char → List Char
  | [] => []
  | [c] => [c]
  | [c1, c2] => [c1, c2]
  | c1 :: c2 :: c3 :: rest =>
    if rest.length % 2 = 0 then c1 :: ',' :: pairSplit (c2 :: c3 :: rest)
    else c1 :: c2 :: ',' :: pairSplit (c3 :: rest)

/-- Digit grouping of `Number.prototype.toLocaleString('en-IN')`: the last
three digits form one group, the remaining digits are grouped in pairs. -/
def indianGroups (ds : List Char) : List Char :=
  if ds.length ≤ 3 then ds
  else pairSplit (ds.take (ds.length - 3)) ++ ',' :: ds.drop (ds.length - 3)

/-- `n.toLocaleString('en-IN')` for integers. -/
def toLocaleStringEnIn (n : Int) : String :=
  if n < 0 then "-" ++ ⟨indianGroups (toString n.natAbs).data⟩
  else ⟨indianGroups (toString n.natAbs).data⟩

/-- JS whitespace as matched by `\s` and removed by `String.prototype.trim`. -/
def isJsWhitespace (c : Char) : Bool :=
  c = ' ' ∨ c = '\t' ∨ c = '\n' ∨ c = '\r'

/-- JS `String.prototype.trim`. -/
def jsTrim (s : String) : String :=
  ⟨((s.data.dropWhile isJsWhitespace).reverse.dropWhile isJsWhitespace).reverse⟩

/-- `` `${first || ''} ${last || ''}`.trim() `` as the handlers build it. -/
def fullName (first last : String) : String :=
  jsTrim (first ++ " " ++ last)

/-! ## Data model (§3 of the spec): rows of the relational store. -/

/-- `profiles` row (the fields the embedded handlers touch). -/
structure Profile where
  id : String
  role : String
  firstName : String
  lastName : String
  referenceName : String
  outstanding : Int
deriving DecidableEq, Repr

/-- `loan_tiers` row. -/
structure LoanTier where
  amount : Int
  fine : Int
  repaymentInfo : String
deriving DecidableEq, Repr

/-- `loan_requests` row. -/
structure Loan where
  id : String
  userId : String
  userEmail : Option String
  amount : Int
  reason : Option String
  guarantorId : Option String
  guarantorName : Option String
  status : String
  createdAt : DateYMD
  dueDate : Option DateYMD
  processedBy : Option String
  processedAt : Option DateYMD
  rejectionReason : Option String
deriving DecidableEq, Repr

/-- `transactions` row. -/
structure Txn where
  userId : Option String
  type : String
  amount : Int
  description : String
  userFullName : String
  createdAt : DateYMD
deriving DecidableEq, Repr

/-- `payment_proofs` row. -/
structure PaymentProof where
  id : String
  userId : String
  userFullName : String
  contributionMonth : DateYMD
  filePath : String
  status : String
  notes : Option String
  processedBy : Option String
  processedAt : Option DateYMD
deriving DecidableEq, Repr

/-- `notifications` row. -/
structure Notification where
  userId : Option String
  title : String
  message : String
  link : String
deriving DecidableEq, Repr

/-- `auth.admin.listUsers(...)` row data as the handlers consume it:
id, email, `created_at`, and `last_sign_in_at` (absent when never). -/
structure AuthUser where
  id : String
  email : String
  createdAt : String
  lastSignIn : Option String
deriving DecidableEq, Repr

/-- The relational store plus the `payment-proofs` storage bucket and the
auth users table. -/
structure State where
  profiles : List Profile
  tiers : List LoanTier
  loans : List Loan
  transactions : List Txn
  proofs : List PaymentProof
  notifications : List Notification
  storage : List String
  authUsers : List AuthUser
deriving DecidableEq, Repr

/-- HTTP-level outcome of a handler: a 200 body, or an error status with
its message payload. -/
inductive Resp where
  | ok (msg : String)
  | err (status : Nat) (msg : String)
deriving DecidableEq, Repr

/-- The fixed-shape 403 payload every inline admin check returns. -/
def adminOnlyResp : Resp :=
  Resp.err 403 "You must be an admin to perform this action."

def Resp.isOk : Resp → Prop
  | .ok _ => True
  | .err _ _ => False

instance (r : Resp) : Decidable r.isOk := by
  cases r <;> simp [Resp.isOk] <;> infer_instance

/-- `.from('profiles').select(...).eq('id', uid).single()`. -/
def findProfile (s : State) (uid : String) : Option Profile :=
  s.profiles.find? (fun p => p.id = uid)

/-- `.from('loan_requests').select('*').eq('id', loanId).single()`. -/
def findLoan (s : State) (loanId : String) : Option Loan :=
  s.loans.find? (fun l => l.id = loanId)

/-- `.from('loan_tiers').select(...).eq('amount', amount).single()`. -/
def findTier (s : State) (amount : Int) : Option LoanTier :=
  s.tiers.find? (fun t => t.amount = amount)

/-- `.from('payment_proofs').select('*').eq('id', proofId).single()`. -/
def findProof (s : State) (proofId : String) : Option PaymentProof :=
  s.proofs.find? (fun p => p.id = proofId)

/-- `auth.admin.getUserById(userId)).data.user?.email`. -/
def findEmail (s : State) (uid : String) : Option String :=
  (s.authUsers.find? (fun u => u.id = uid)).map (fun u => u.email)

/-- The caller's stored role is `admin`: the `profileError || profile.role
!== 'admin'` guard, inverted. -/
def isAdminCaller (s : State) (uid : String) : Prop :=
  ∃ p, findProfile s uid = some p ∧ p.role = "admin"

instance (s : State) (uid : String) : Decidable (isAdminCaller s uid) := by
  unfold isAdminCaller
  cases findProfile s uid with
  | none => exact .isFalse (by simp)
  | some p => exact decidable_of_iff (p.role = "admin") (by simp)

/-! ## Database routines not in the repository source. -/

/-- Modelled from the spec: the `increment_user_outstanding_amount`
database routine invoked by `admin-disburse-loan` and `admin-create-loan`
is not in the repository source; per the spec §4.1 it "increments the
member's outstanding_amount by `amount + tier.fine`".  Modelled as adding
the given amount to the matching profile's `outstanding_amount`. -/
def incrementUserOutstandingAmount (s : State) (uid : String) (amountToAdd : Int) : State :=
  { s with profiles := s.profiles.map (fun p =>
      if p.id = uid then { p with outstanding := p.outstanding + amountToAdd } else p) }

/-- Modelled from the spec: the `admin_create_transaction` database routine
invoked by `process-payment-proof` and `admin-bulk-add-contributions` is
not in the repository source; per the spec §4.2/§4.3 it creates one
Transaction with the given fields dated to the given date "via a
server-side balance-increment routine" that adjusts the owner's
outstanding amount accordingly (withdrawals owe more, deposits owe less). -/
def adminCreateTransaction (s : State) (uid : String) (type : String) (amount : Int)
    (description : String) (userFullName : String) (txnDate : DateYMD) : State :=
  { s with
    transactions := s.transactions ++
      [{ userId := some uid, type := type, amount := amount,
         description := description, userFullName := userFullName,
         createdAt := txnDate }]
    profiles := s.profiles.map (fun p =>
      if p.id = uid then
        { p with outstanding :=
            p.outstanding + (if type = "withdrawal" then amount else -amount) }
      else p) }

/-- Modelled from the spec: the `increment_outstanding_amounts` database
routine invoked by `monthly-dues` is not in the repository source; per the
spec §4.4 it "increments every non-admin member's outstanding_amount by a
fixed amount" and writes no per-member Transactions. -/
def incrementOutstandingAmounts (s : State) (amountToAdd : Int) : State :=
  { s with profiles := s.profiles.map (fun p =>
      if p.role = "admin" then p
      else { p with outstanding := p.outstanding + amountToAdd }) }

/-- `.from('loan_requests').update(...).eq('id', loanId)`. -/
def updateLoan (s : State) (loanId : String) (f : Loan → Loan) : State :=
  { s with loans := s.loans.map (fun l => if l.id = loanId then f l else l) }

/-- `.from('payment_proofs').update(...).eq('id', proofId)`. -/
def updateProof (s : State) (proofId : String) (f : PaymentProof → PaymentProof) : State :=
  { s with proofs := s.proofs.map (fun p => if p.id = proofId then f p else p) }

/-- `.from('notifications').insert(...)`. -/
def insertNotification (s : State) (n : Notification) : State :=
  { s with notifications := s.notifications ++ [n] }

/-- `.storage.from('payment-proofs').remove([path])`. -/
def storageRemove (s : State) (path : String) : State :=
  { s with storage := s.storage.filter (fun q => q ≠ path) }

/-! ## `admin-disburse-loan` -/

/-- The `admin-disburse-loan` handler.  `caller` is the authenticated user
(`none` when the bearer credential is missing/invalid), `now` the wall
clock (`new Date()` / the insert-time default of `created_at`). -/
def adminDisburseLoan (s : State) (caller : Option String) (loanId : String)
    (now : DateYMD) : Resp × State :=
  match caller with
  | none => (.err 500 "Admin user not authenticated", s)
  | some uid =>
    if ¬ isAdminCaller s uid then (adminOnlyResp, s)
    else if loanId = "" then (.err 400 "Missing loanId.", s)
    else
      match findLoan s loanId with
      | none => (.err 500 "Loan request not found.", s)
      | some loanRequest =>
        if loanRequest.status ≠ "approved" then
          (.err 500 "This loan is not in an approved state ready for disbursement.", s)
        else
          match findTier s loanRequest.amount with
          | none => (.err 500 "Could not find loan tier.", s)
          | some loanTier =>
            let totalAmountToAdd := loanRequest.amount + loanTier.fine
            let s1 := incrementUserOutstandingAmount s loanRequest.userId totalAmountToAdd
            let userFullName :=
              match findProfile s1 loanRequest.userId with
              | some p => if fullName p.firstName p.lastName = "" then "N/A"
                          else fullName p.firstName p.lastName
              | none => "N/A"
            let s2 := { s1 with transactions := s1.transactions ++
              [{ userId := some loanRequest.userId, type := "withdrawal",
                 amount := loanRequest.amount,
                 description := "Loan of $" ++ toLocaleStringEnIn loanRequest.amount ++
                   " disbursed. Total outstanding: $" ++ toLocaleStringEnIn totalAmountToAdd ++ ".",
                 userFullName := userFullName, createdAt := now },
               { userId := none, type := "withdrawal", amount := loanRequest.amount,
                 description := "Loan", userFullName := userFullName, createdAt := now }] }
            let s3 := updateLoan s2 loanId (fun l => { l with status := "in-process" })
            let s4 := insertNotification s3
              { userId := some loanRequest.userId, title := "Loan Disbursed",
                message := "Your loan of $" ++ toLocaleStringEnIn loanRequest.amount ++
                  " has been disbursed.",
                link := "/loan-request" }
            (.ok "Loan successfully disbursed.", s4)

/-! ## `process-loan-request` -/

def isDigitChar (c : Char) : Bool :=
  decide ('0' ≤ c) && decide (c ≤ '9')

/-- `parseInt(ds, 10)` on a non-empty digit run. -/
def parseDigits (ds : List Char) : Nat :=
  ds.foldl (fun n c => n * 10 + (c.toNat - 48)) 0

/-- One anchor attempt of the JS regex `(\d+)\s+Months`: a maximal digit
run, then a maximal whitespace run, then the literal `Months`; yields the
captured digit run. -/
def matchMonthsAt (l : List Char) : Option (List Char) :=
  let ds := l.takeWhile isDigitChar
  if ds = [] then none
  else
    let r1 := l.drop ds.length
    let ws := r1.takeWhile isJsWhitespace
    if ws = [] then none
    else if (r1.drop ws.length).take 6 = "Months".data then some ds else none

def findMonthsAux : List Char → Option Nat
  | [] => none
  | c :: rest =>
    match matchMonthsAt (c :: rest) with
    | some ds => some (parseDigits ds)
    | none => findMonthsAux rest

/-- `repaymentString.match(/(\d+)\s+Months/)` followed by
`parseInt(monthsMatch[1], 10)`: the leftmost match's first capture group as
a number. -/
def findMonths (s : String) : Option Nat :=
  findMonthsAux s.data

/-- The `process-loan-request` handler (approve/reject a pending loan). -/
def processLoanRequest (s : State) (caller : Option String)
    (loanId statusArg rejectionReason : String) (now : DateYMD) : Resp × State :=
  match caller with
  | none => (.err 500 "Admin user not authenticated", s)
  | some uid =>
    if ¬ isAdminCaller s uid then (adminOnlyResp, s)
    else if loanId = "" ∨ (statusArg ≠ "approved" ∧ statusArg ≠ "rejected") then
      (.err 400 "Missing or invalid required fields.", s)
    else if statusArg = "rejected" ∧ rejectionReason = "" then
      (.err 400 "Rejection reason is required.", s)
    else
      match findLoan s loanId with
      | none => (.err 500 "Loan request not found.", s)
      | some loanRequest =>
        if loanRequest.status ≠ "pending" then
          (.err 500 "This loan request has already been processed.", s)
        else if statusArg = "approved" then
          match findTier s loanRequest.amount with
          | none => (.err 500 "Could not find loan tier.", s)
          | some loanTier =>
            let s' := updateLoan s loanId (fun l =>
              { l with status := statusArg, processedBy := some uid,
                       processedAt := some now,
                       dueDate :=
                         match findMonths loanTier.repaymentInfo with
                         | some monthsToAdd => some (addMonths now (monthsToAdd : Int))
                         | none => l.dueDate })
            (.ok ("Loan request successfully " ++ statusArg ++ "."), s')
        else
          let s' := updateLoan s loanId (fun l =>
            { l with status := statusArg, processedBy := some uid,
                     processedAt := some now,
                     rejectionReason := some rejectionReason })
          (.ok ("Loan request successfully " ++ statusArg ++ "."), s')

/-! ## `process-payment-proof` -/

/-- The `process-payment-proof` handler (approve/reject a pending
contribution proof).  `notes` is `none` when absent from the JSON body. -/
def processPaymentProof (s : State) (caller : Option String)
    (proofId statusArg : String) (notes : Option String) (now : DateYMD) : Resp × State :=
  match caller with
  | none => (.err 500 "Admin user not authenticated", s)
  | some uid =>
    if ¬ isAdminCaller s uid then (adminOnlyResp, s)
    else if proofId = "" ∨ (statusArg ≠ "approved" ∧ statusArg ≠ "rejected") then
      (.err 400 "Missing or invalid required fields.", s)
    else if statusArg = "rejected" ∧ (notes = none ∨ notes = some "") then
      (.err 400 "Rejection notes are required.", s)
    else
      match findProof s proofId with
      | none => (.err 500 "Payment proof not found.", s)
      | some proof =>
        if proof.status ≠ "pending" then
          (.err 500 "This proof has already been processed.", s)
        else
          let s1 :=
            if statusArg = "approved" then
              adminCreateTransaction s proof.userId "deposit" 500
                ("Monthly contribution for " ++ monthYearName proof.contributionMonth)
                proof.userFullName proof.contributionMonth
            else s
          let s2 := updateProof s1 proofId (fun p =>
            { p with status := statusArg,
                     notes := (match notes with | some n => some n | none => p.notes),
                     processedBy := some uid, processedAt := some now })
          let s3 := insertNotification s2
            (if statusArg = "approved" then
              { userId := some proof.userId, title := "Contribution Approved",
                message := "Your contribution for " ++
                  monthYearName proof.contributionMonth ++ " has been approved.",
                link := "/contribute" }
             else
              { userId := some proof.userId, title := "Contribution Rejected",
                message := "Your contribution for " ++
                  monthYearName proof.contributionMonth ++ " was rejected. Reason: " ++
                  notes.getD "", link := "/contribute" })
          let s4 := storageRemove s3 proof.filePath
          (.ok ("Proof successfully " ++ statusArg ++ "."), s4)

/-! ## `admin-bulk-add-contributions` -/

/-- The `while (currentDate <= endDate)` loop of
`admin-bulk-add-contributions`: one `admin_create_transaction` call per
month, stepping by `addMonths(currentDate, 1)`.  The loop advances the
month index by exactly one per iteration, so instantiating `fuel` with the
number of months from `cur` through `endD` (as `adminBulkAddContributions`
does) makes the fuel and the loop guard run out together. -/
def bulkLoop (fuel : Nat) (s : State) (uid userFullName : String)
    (cur endD : DateYMD) (count : Nat) : State × Nat :=
  match fuel with
  | 0 => (s, count)
  | fuel + 1 =>
    if dateLe cur endD then
      bulkLoop fuel
        (adminCreateTransaction s uid "deposit" 500
          ("Monthly contribution for " ++ monthYearName cur) userFullName cur)
        uid userFullName (addMonths cur 1) endD (count + 1)
    else (s, count)

/-- The `admin-bulk-add-contributions` handler.  The five body fields are
`none` when absent (`=== undefined`). -/
def adminBulkAddContributions (s : State) (caller : Option String)
    (userId : Option String) (startYear startMonth endYear endMonth : Option Int) :
    Resp × State :=
  match caller with
  | none => (.err 500 "Admin user not authenticated", s)
  | some uid =>
    if ¬ isAdminCaller s uid then (adminOnlyResp, s)
    else
      match userId, startYear, startMonth, endYear, endMonth with
      | some userId, some startYear, some startMonth, some endYear, some endMonth =>
        (match findProfile s userId with
         | none => (.err 500 "Could not fetch user profile.", s)
         | some userProfile =>
           let userFullName := fullName userProfile.firstName userProfile.lastName
           let startDate := mkDate startYear startMonth 1
           let endDate := mkDate endYear endMonth 1
           let r := bulkLoop (endDate.ym + 1 - startDate.ym).toNat s userId userFullName
             startDate endDate 0
           (.ok ("Successfully added " ++ toString r.2 ++ " contributions."), r.1))
      | _, _, _, _, _ => (.err 400 "Missing required fields.", s)

/-! ## `admin-create-loan` -/

/-- `` `${profile?.first_name || ''} ${profile?.last_name || ''}`.trim() ``. -/
def optFullName (p : Option Profile) : String :=
  fullName (match p with | some q => q.firstName | none => "")
           (match p with | some q => q.lastName | none => "")

/-- The `admin-create-loan` handler (historical loan creation into an
explicit status).  `newId` stands for the row id the store generates. -/
def adminCreateLoan (s : State) (caller : Option String) (userId : String)
    (amount : Int) (reason : Option String) (guarantorId : String)
    (statusArg : String) (issueDate dueDate : Option DateYMD)
    (newId : String) (now : DateYMD) : Resp × State :=
  match caller with
  | none => (.err 500 "Admin user not authenticated", s)
  | some uid =>
    if ¬ isAdminCaller s uid then (adminOnlyResp, s)
    else
      match issueDate with
      | none => (.err 400 "Missing or invalid required fields.", s)
      | some issueDateVal =>
        if userId = "" ∨ amount = 0 ∨ guarantorId = "" ∨
            (statusArg ≠ "pending" ∧ statusArg ≠ "in-process" ∧
             statusArg ≠ "rejected" ∧ statusArg ≠ "closed") then
          (.err 400 "Missing or invalid required fields.", s)
        else
          let userFullName := optFullName (findProfile s userId)
          let guarantorName := optFullName (findProfile s guarantorId)
          let s1 := { s with loans := s.loans ++
            [{ id := newId, userId := userId, userEmail := findEmail s userId,
               amount := amount, reason := reason, guarantorId := some guarantorId,
               guarantorName := some guarantorName, status := statusArg,
               createdAt := issueDateVal, dueDate := dueDate,
               processedBy := if statusArg ≠ "pending" then some uid else none,
               processedAt := if statusArg ≠ "pending" then some now else none,
               rejectionReason := none }] }
          if statusArg = "in-process" ∨ statusArg = "closed" then
            match findTier s1 amount with
            | none => (.err 500 "Could not find loan tier.", s1)
            | some loanTier =>
              let totalAmountToAdd := amount + loanTier.fine
              let s2 := incrementUserOutstandingAmount s1 userId totalAmountToAdd
              let s3 := { s2 with transactions := s2.transactions ++
                [{ userId := some userId, type := "withdrawal", amount := amount,
                   description := "Loan of $" ++ toLocaleStringEnIn amount ++
                     " approved. Total outstanding: $" ++
                     toLocaleStringEnIn totalAmountToAdd ++ ".",
                   userFullName := userFullName, createdAt := issueDateVal },
                 { userId := none, type := "withdrawal", amount := amount,
                   description := "Loan", userFullName := userFullName,
                   createdAt := issueDateVal }] }
              (.ok "Loan created successfully", s3)
          else (.ok "Loan created successfully", s1)

/-! ## `monthly-dues` and `export-users` (no admin-role check in source) -/

/-- The `monthly-dues` handler: it performs no authentication and no
admin-role check before calling the balance-increment routine, so the
caller is ignored. -/
def monthlyDues (s : State) (caller : Option String) : Resp × State :=
  let _ := caller
  (.ok "Successfully updated outstanding amounts for all users by 500.",
   incrementOutstandingAmounts s 500)

/-! ## `submit-payment-proof` -/

/-- `file.name.split('.').pop()`. -/
def fileExtOf (name : String) : String :=
  ⟨(name.data.reverse.takeWhile (fun c => c ≠ '.')).reverse⟩

/-- The `submit-payment-proof` handler.  `file` is the uploaded file's
name (`none` when absent), `nowMs` is `Date.now()`; the `uploadOk` /
`insertOk` flags make the two fallible store operations' outcomes
explicit. -/
def submitPaymentProof (s : State) (caller : Option String)
    (file : Option String) (year month : Option Int) (nowMs : Nat)
    (newProofId : String) (uploadOk insertOk : Bool) : Resp × State :=
  match caller with
  | none => (.err 500 "User not authenticated", s)
  | some uid =>
    match findProfile s uid with
    | none => (.err 500 "Could not fetch user profile.", s)
    | some profile =>
      match file, year, month with
      | some fileName, some year, some month =>
        let filePath := uid ++ "-" ++ toString nowMs ++ "." ++ fileExtOf fileName
        if ¬ uploadOk then (.err 500 "Storage upload failed.", s)
        else
          let s1 := { s with storage := s.storage ++ [filePath] }
          let contributionMonth := mkDate year (month - 1) 1
          let userFullName := fullName profile.firstName profile.lastName
          if insertOk then
            (.ok "Proof submitted successfully",
             { s1 with proofs := s1.proofs ++
               [{ id := newProofId, userId := uid, userFullName := userFullName,
                  contributionMonth := contributionMonth, filePath := filePath,
                  status := "pending", notes := none, processedBy := none,
                  processedAt := none }] })
          else (.err 500 "Database insert failed.", storageRemove s1 filePath)
      | _, _, _ => (.err 400 "Missing required fields: proof, year, or month.", s)

/-! ## CSV export (`toCsv`) and an RFC4180 parser for the round-trip claim -/

/-- `val.replace(matching quotes for doubled quotes, global)`. -/
def doubleQuotes : List Char → List Char
  | [] => []
  | c :: cs => if c = '"' then '"' :: '"' :: doubleQuotes cs else c :: doubleQuotes cs

/-- One `toCsv` cell: quote the value iff it contains a comma, a double
quote, or a newline, doubling internal quotes. -/
def escChars (l : List Char) : List Char :=
  if l.contains ',' || l.contains '"' || l.contains '\n' then
    '"' :: doubleQuotes l ++ ['"']
  else l

/-- `xs.join(sep)` at the character level. -/
def joinSep (sep : Char) : List (List Char) → List Char
  | [] => []
  | [x] => x
  | x :: y :: rest => x ++ sep :: joinSep sep (y :: rest)

/-- The `toCsv` helper of the export handlers: header row of the raw
column labels, then one line per record with escaped cells, lines joined
by a newline.  A record here is the column-ordered list of its cell values
after the handler's `row[col] === null or undefined ? '' : String(row[col])`
conversion. -/
def toCsv (data : List (List String)) (columns : List String) : String :=
  ⟨joinSep ',' (columns.map String.data) ++
   '\n' :: joinSep '\n' (data.map (fun row => joinSep ',' (row.map (fun v => escChars v.data))))⟩

/-- Modelled from the spec: the repository only exports CSV and contains
no parser, so re-parsing is modelled from the spec's format description
("RFC4180-style quoting: fields containing comma/quote/newline are wrapped
in quotes with internal quotes doubled") — quoted fields with doubled
internal quotes, comma as field separator, and the producer's newline as
record separator; a trailing line break ends the last record rather than
opening an empty one.  State: inside-quotes flag, current field, current
record (reversed), finished records (reversed). -/
def csvGo (inQ : Bool) (input fld : List Char) (rec : List (List Char))
    (recs : List (List (List Char))) : List (List (List Char)) :=
  match input with
  | [] =>
    if fld = [] ∧ rec = [] then recs.reverse
    else ((fld :: rec).reverse :: recs).reverse
  | c :: cs =>
    if inQ then
      if c = '"' then
        match cs with
        | '"' :: cs2 => csvGo true cs2 (fld ++ ['"']) rec recs
        | [] => csvGo false [] fld rec recs
        | c2 :: cs2 => csvGo false (c2 :: cs2) fld rec recs
      else csvGo true cs (fld ++ [c]) rec recs
    else
      if c = '"' ∧ fld = [] then csvGo true cs fld rec recs
      else if c = ',' then csvGo false cs [] (fld :: rec) recs
      else if c = '\n' then csvGo false cs [] [] ((fld :: rec).reverse :: recs)
      else csvGo false cs (fld ++ [c]) rec recs
termination_by input.length
decreasing_by all_goals simp_arith [List.length]

/-- Parse a CSV text into its records of field values. -/
def parseCsv (s : String) : List (List String) :=
  (csvGo false s.data [] [] []).map (fun r => r.map (fun f => (⟨f⟩ : String)))

/-- The column labels of the `export-transactions` CSV. -/
def txColumns : List String :=
  ["id", "created_at", "user_id", "type", "amount", "description", "user_full_name"]

/-- One `transactions` row as fed to `toCsv`: the column-ordered,
stringified cell values. -/
structure TxnRecord where
  id : String
  createdAt : String
  userId : String
  type : String
  amount : String
  description : String
  userFullName : String
deriving DecidableEq, Repr

/-- `txColumns.map(col => String(row[col]))` for a transaction row. -/
def txnRecordFields (r : TxnRecord) : List String :=
  [r.id, r.createdAt, r.userId, r.type, r.amount, r.description, r.userFullName]

/-! ## `export-users` (no auth and no admin-role check in source) -/

/-- The column labels of the `export-users` CSV. -/
def userColumns : List String :=
  ["id", "email", "first_name", "last_name", "role", "outstanding_amount",
   "reference_name", "last_sign_in_at", "created_at"]

/-- The `export-users` handler: it performs no authentication and no
admin-role check, so the caller is ignored; it merges the auth users with
their profiles (JS `||` fallbacks included) and returns the CSV. -/
def exportUsers (s : State) (caller : Option String) : Resp × State :=
  let _ := caller
  let mergedData := s.authUsers.map (fun user =>
    let profile := findProfile s user.id
    [user.id, user.email,
     (match profile with | some p => p.firstName | none => ""),
     (match profile with | some p => p.lastName | none => ""),
     (match profile with
      | some p => if p.role = "" then "user" else p.role
      | none => "user"),
     toString (match profile with | some p => p.outstanding | none => 0),
     (match profile with | some p => p.referenceName | none => ""),
     (match user.lastSignIn with
      | some t => if t = "" then "Never" else t
      | none => "Never"),
     user.createdAt])
  (.ok (toCsv mergedData userColumns), s)

/-! ## Statement-side helpers for the bulk-backfill claims -/

/-- The inclusive list of month indices from `a` through `b`. -/
def monthsFromTo (a b : Int) : List Int :=
  (List.range (b + 1 - a).toNat).map (fun i => a + Int.ofNat i)

/-- The deposit Transaction the backfill creates for month `ym`, dated to
that month's first day. -/
def contribTxn (uid name : String) (ym : Int) : Txn :=
  { userId := some uid, type := "deposit", amount := 500,
    description := "Monthly contribution for " ++ monthYearName ⟨ym, 1⟩,
    userFullName := name, createdAt := ⟨ym, 1⟩ }

/-! ## Concrete fixtures used by the witness theorems -/

def tierW : LoanTier := ⟨5000, 250, "5 Months"⟩

def memberW : Profile := ⟨"u1", "user", "Alice", "Kay", "", 100⟩

def adminW : Profile := ⟨"a1", "admin", "Ada", "Min", "", 0⟩

def loanApprovedW : Loan :=
  { id := "L1", userId := "u1", userEmail := some "alice.example", amount := 5000,
    reason := some "school fees", guarantorId := some "g1",
    guarantorName := some "Gigi Ha", status := "approved",
    createdAt := mkDate 2024 0 10, dueDate := none, processedBy := none,
    processedAt := none, rejectionReason := none }

def loanPendingW : Loan := { loanApprovedW with status := "pending" }

def loanClosedW : Loan := { loanApprovedW with status := "closed" }

def proofPendingW : PaymentProof :=
  { id := "PP1", userId := "u1", userFullName := "Alice Kay",
    contributionMonth := mkDate 2024 2 1, filePath := "u1-99.png",
    status := "pending", notes := none, processedBy := none, processedAt := none }

def nowW : DateYMD := mkDate 2024 4 2

def stateDisburseW : State :=
  ⟨[adminW, memberW], [tierW], [loanApprovedW], [], [], [], [], []⟩

def statePendingW : State :=
  ⟨[adminW, memberW], [tierW], [loanPendingW], [], [], [], [], []⟩

def stateClosedW : State :=
  ⟨[adminW, memberW], [tierW], [loanClosedW], [], [], [], [], []⟩

def stateProofW : State :=
  ⟨[adminW, memberW], [tierW], [], [], [proofPendingW], [], ["u1-99.png"], []⟩

/-! ## Generic lemmas about keyed row updates -/

/-- Updating the rows matching a key (with a key-preserving update) and
then looking the key up finds the updated row. -/
theorem find?_ite_update {α : Type} (key : α → String) (k : String) (upd : α → α)
    (hkey : ∀ a, key (upd a) = key a) :
    ∀ l : List α,
      (l.map (fun a => if key a = k then upd a else a)).find? (fun a => key a = k)
        = (l.find? (fun a => key a = k)).map upd
  | [] => rfl
  | a :: t => by
    by_cases h : key a = k
    · simp [List.find?, h, hkey]
    · simp [List.find?, h, find?_ite_update key k upd hkey t]

/-- Looking a profile up after `increment_user_outstanding_amount`. -/
theorem findProfile_increment (s : State) (uid : String) (a : Int) :
    findProfile (incrementUserOutstandingAmount s uid a) uid =
      (findProfile s uid).map (fun p => { p with outstanding := p.outstanding + a }) := by
  unfold findProfile incrementUserOutstandingAmount
  exact find?_ite_update (fun p => p.id) uid
    (fun p => { p with outstanding := p.outstanding + a }) (fun _ => rfl) s.profiles

/-- Looking a profile up after `increment_user_outstanding_amount`, when
the profile exists. -/
theorem findProfile_increment_found (s : State) (uid : String) (a : Int) (p : Profile)
    (hp : findProfile s uid = some p) :
    findProfile (incrementUserOutstandingAmount s uid a) uid =
      some { p with outstanding := p.outstanding + a } := by
  rw [findProfile_increment, hp]
  rfl

/-- Looking a loan up after `updateLoan` with an id-preserving update. -/
theorem findLoan_updateLoan (s : State) (loanId : String) (f : Loan → Loan)
    (hf : ∀ l, (f l).id = l.id) :
    findLoan (updateLoan s loanId f) loanId = (findLoan s loanId).map f := by
  unfold findLoan updateLoan
  exact find?_ite_update (fun l => l.id) loanId f hf s.loans

/-- Looking a proof up after `updateProof` with an id-preserving update. -/
theorem findProof_updateProof (s : State) (proofId : String) (f : PaymentProof → PaymentProof)
    (hf : ∀ p, (f p).id = p.id) :
    findProof (updateProof s proofId f) proofId = (findProof s proofId).map f := by
  unfold findProof updateProof
  exact find?_ite_update (fun p => p.id) proofId f hf s.proofs

/-! ## Claim C1: disbursement side effects -/

/-- C1: for every loan request in status `approved` whose amount matches a
loan tier with fine `F`, a successful disburse increases the owning
member's outstanding amount by exactly `amount + F`, inserts exactly two
withdrawal Transactions of that amount (one owned by the member, one with
no owner), and sets the loan's status to `in-process`. -/
theorem claim_C1_disburse_effects (s : State) (adminId loanId : String) (now : DateYMD)
    (loan : Loan) (tier : LoanTier) (p : Profile)
    (hA : isAdminCaller s adminId)
    (hId : loanId ≠ "")
    (hL : findLoan s loanId = some loan)
    (hS : loan.status = "approved")
    (hT : findTier s loan.amount = some tier)
    (hP : findProfile s loan.userId = some p) :
    (adminDisburseLoan s (some adminId) loanId now).1 = .ok "Loan successfully disbursed." ∧
    findProfile (adminDisburseLoan s (some adminId) loanId now).2 loan.userId =
      some { p with outstanding := p.outstanding + (loan.amount + tier.fine) } ∧
    (∃ d n, (adminDisburseLoan s (some adminId) loanId now).2.transactions =
      s.transactions ++
        [{ userId := some loan.userId, type := "withdrawal", amount := loan.amount,
           description := d, userFullName := n, createdAt := now },
         { userId := none, type := "withdrawal", amount := loan.amount,
           description := "Loan", userFullName := n, createdAt := now }]) ∧
    findLoan (adminDisburseLoan s (some adminId) loanId now).2 loanId =
      some { loan with status := "in-process" } := by
  unfold adminDisburseLoan
  simp only [hA, not_true, if_false, hId, hL, hS, hT]
  refine ⟨rfl, ?_, ⟨_, _, rfl⟩, ?_⟩
  · have h2 := findProfile_increment s loan.userId (loan.amount + tier.fine)
    rw [hP] at h2
    exact h2
  · unfold findLoan at hL
    have h4 := find?_ite_update (fun l => l.id) loanId
      (fun l => { l with status := "in-process" }) (fun _ => rfl) s.loans
    rw [hL] at h4
    exact h4

/-- C1 witness: the effects at a concrete approved loan of the 5000/250
tier. -/
theorem claim_C1_disburse_effects_witness :
    isAdminCaller stateDisburseW "a1" ∧
    "L1" ≠ "" ∧
    findLoan stateDisburseW "L1" = some loanApprovedW ∧
    loanApprovedW.status = "approved" ∧
    findTier stateDisburseW loanApprovedW.amount = some tierW ∧
    findProfile stateDisburseW loanApprovedW.userId = some memberW ∧
    ((adminDisburseLoan stateDisburseW (some "a1") "L1" nowW).1 =
        .ok "Loan successfully disbursed." ∧
      findProfile (adminDisburseLoan stateDisburseW (some "a1") "L1" nowW).2
          loanApprovedW.userId =
        some { memberW with
               outstanding := memberW.outstanding + (loanApprovedW.amount + tierW.fine) } ∧
      (∃ d n, (adminDisburseLoan stateDisburseW (some "a1") "L1" nowW).2.transactions =
        stateDisburseW.transactions ++
          [{ userId := some loanApprovedW.userId, type := "withdrawal",
             amount := loanApprovedW.amount, description := d, userFullName := n,
             createdAt := nowW },
           { userId := none, type := "withdrawal", amount := loanApprovedW.amount,
             description := "Loan", userFullName := n, createdAt := nowW }]) ∧
      findLoan (adminDisburseLoan stateDisburseW (some "a1") "L1" nowW).2 "L1" =
        some { loanApprovedW with status := "in-process" }) :=
  ⟨by decide, by decide, by decide, by decide, by decide, by decide,
   claim_C1_disburse_effects stateDisburseW "a1" "L1" nowW loanApprovedW tierW memberW
     (by decide) (by decide) (by decide) (by decide) (by decide) (by decide)⟩

/-! ## Claim C2: status transitions only from the documented source state -/

/-- `process-loan-request` invoked on a loan that is not `pending` errors
and leaves the state unchanged. -/
theorem processLoanRequest_bad_source (s : State) (c : Option String)
    (loanId st rr : String) (now : DateYMD) (loan : Loan)
    (hL : findLoan s loanId = some loan) (hS : loan.status ≠ "pending") :
    ¬ (processLoanRequest s c loanId st rr now).1.isOk ∧
      (processLoanRequest s c loanId st rr now).2 = s := by
  unfold processLoanRequest
  cases c with
  | none => exact ⟨by simp [Resp.isOk], rfl⟩
  | some uid =>
    dsimp only
    by_cases hA : isAdminCaller s uid
    · rw [if_neg (not_not_intro hA)]
      by_cases h1 : loanId = "" ∨ (st ≠ "approved" ∧ st ≠ "rejected")
      · rw [if_pos h1]
        exact ⟨by simp [Resp.isOk], rfl⟩
      · rw [if_neg h1]
        by_cases h2 : st = "rejected" ∧ rr = ""
        · rw [if_pos h2]
          exact ⟨by simp [Resp.isOk], rfl⟩
        · rw [if_neg h2, hL]
          dsimp only
          rw [if_pos hS]
          exact ⟨by simp [Resp.isOk], rfl⟩
    · rw [if_pos hA]
      exact ⟨by simp [adminOnlyResp, Resp.isOk], rfl⟩

/-- A successful `process-loan-request` implies the loan existed in status
`pending`. -/
theorem processLoanRequest_ok_source (s : State) (c : Option String)
    (loanId st rr : String) (now : DateYMD)
    (h : (processLoanRequest s c loanId st rr now).1.isOk) :
    ∃ loan, findLoan s loanId = some loan ∧ loan.status = "pending" := by
  cases hF : findLoan s loanId with
  | some loan =>
    by_cases hS : loan.status = "pending"
    · exact ⟨loan, rfl, hS⟩
    · exact absurd h (processLoanRequest_bad_source s c loanId st rr now loan hF hS).1
  | none =>
    exfalso
    unfold processLoanRequest at h
    cases c with
    | none => simp [Resp.isOk] at h
    | some uid =>
      dsimp only at h
      by_cases hA : isAdminCaller s uid
      · rw [if_neg (not_not_intro hA)] at h
        by_cases h1 : loanId = "" ∨ (st ≠ "approved" ∧ st ≠ "rejected")
        · rw [if_pos h1] at h
          simp [Resp.isOk] at h
        · rw [if_neg h1] at h
          by_cases h2 : st = "rejected" ∧ rr = ""
          · rw [if_pos h2] at h
            simp [Resp.isOk] at h
          · rw [if_neg h2, hF] at h
            simp [Resp.isOk] at h
      · rw [if_pos hA] at h
        simp [adminOnlyResp, Resp.isOk] at h

/-- `admin-disburse-loan` invoked on a loan that is not `approved` errors
and leaves the state unchanged. -/
theorem adminDisburseLoan_bad_source (s : State) (c : Option String)
    (loanId : String) (now : DateYMD) (loan : Loan)
    (hL : findLoan s loanId = some loan) (hS : loan.status ≠ "approved") :
    ¬ (adminDisburseLoan s c loanId now).1.isOk ∧
      (adminDisburseLoan s c loanId now).2 = s := by
  unfold adminDisburseLoan
  cases c with
  | none => exact ⟨by simp [Resp.isOk], rfl⟩
  | some uid =>
    dsimp only
    by_cases hA : isAdminCaller s uid
    · rw [if_neg (not_not_intro hA)]
      by_cases h1 : loanId = ""
      · rw [if_pos h1]
        exact ⟨by simp [Resp.isOk], rfl⟩
      · rw [if_neg h1, hL]
        dsimp only
        rw [if_pos hS]
        exact ⟨by simp [Resp.isOk], rfl⟩
    · rw [if_pos hA]
      exact ⟨by simp [adminOnlyResp, Resp.isOk], rfl⟩

/-- A successful `admin-disburse-loan` implies the loan existed in status
`approved`. -/
theorem adminDisburseLoan_ok_source (s : State) (c : Option String)
    (loanId : String) (now : DateYMD)
    (h : (adminDisburseLoan s c loanId now).1.isOk) :
    ∃ loan, findLoan s loanId = some loan ∧ loan.status = "approved" := by
  cases hF : findLoan s loanId with
  | some loan =>
    by_cases hS : loan.status = "approved"
    · exact ⟨loan, rfl, hS⟩
    · exact absurd h (adminDisburseLoan_bad_source s c loanId now loan hF hS).1
  | none =>
    exfalso
    unfold adminDisburseLoan at h
    cases c with
    | none => simp [Resp.isOk] at h
    | some uid =>
      dsimp only at h
      by_cases hA : isAdminCaller s uid
      · rw [if_neg (not_not_intro hA)] at h
        by_cases h1 : loanId = ""
        · rw [if_pos h1] at h
          simp [Resp.isOk] at h
        · rw [if_neg h1, hF] at h
          simp [Resp.isOk] at h
      · rw [if_pos hA] at h
        simp [adminOnlyResp, Resp.isOk] at h

/-- C2: approve/reject succeed only on a `pending` loan and disburse only
on an `approved` loan; invoked on a loan in any other state, the operation
returns an error and leaves the state unchanged. -/
theorem claim_C2_transition_preconditions :
    (∀ s c loanId st rr now, (processLoanRequest s c loanId st rr now).1.isOk →
      ∃ loan, findLoan s loanId = some loan ∧ loan.status = "pending") ∧
    (∀ s c loanId st rr now loan, findLoan s loanId = some loan →
      loan.status ≠ "pending" →
      ¬ (processLoanRequest s c loanId st rr now).1.isOk ∧
        (processLoanRequest s c loanId st rr now).2 = s) ∧
    (∀ s c loanId now, (adminDisburseLoan s c loanId now).1.isOk →
      ∃ loan, findLoan s loanId = some loan ∧ loan.status = "approved") ∧
    (∀ s c loanId now loan, findLoan s loanId = some loan →
      loan.status ≠ "approved" →
      ¬ (adminDisburseLoan s c loanId now).1.isOk ∧
        (adminDisburseLoan s c loanId now).2 = s) :=
  ⟨fun s c loanId st rr now h => processLoanRequest_ok_source s c loanId st rr now h,
   fun s c loanId st rr now loan hL hS =>
     processLoanRequest_bad_source s c loanId st rr now loan hL hS,
   fun s c loanId now h => adminDisburseLoan_ok_source s c loanId now h,
   fun s c loanId now loan hL hS => adminDisburseLoan_bad_source s c loanId now loan hL hS⟩

/-- C2 witness: approving a `closed` loan errors and changes nothing, and
disbursing a `pending` loan errors and changes nothing. -/
theorem claim_C2_transition_preconditions_witness :
    (findLoan stateClosedW "L1" = some loanClosedW ∧ loanClosedW.status ≠ "pending" ∧
      ¬ (processLoanRequest stateClosedW (some "a1") "L1" "approved" "" nowW).1.isOk ∧
      (processLoanRequest stateClosedW (some "a1") "L1" "approved" "" nowW).2 =
        stateClosedW) ∧
    (findLoan statePendingW "L1" = some loanPendingW ∧
      loanPendingW.status ≠ "approved" ∧
      ¬ (adminDisburseLoan statePendingW (some "a1") "L1" nowW).1.isOk ∧
      (adminDisburseLoan statePendingW (some "a1") "L1" nowW).2 = statePendingW) :=
  ⟨⟨by decide, by decide,
    claim_C2_transition_preconditions.2.1 stateClosedW (some "a1") "L1" "approved" ""
      nowW loanClosedW (by decide) (by decide)⟩,
   ⟨by decide, by decide,
    claim_C2_transition_preconditions.2.2.2 statePendingW (some "a1") "L1" nowW
      loanPendingW (by decide) (by decide)⟩⟩

/-! ## Claim C3: contribution proof processing -/

/-- C3: approving a pending proof creates exactly one deposit Transaction
of the fixed monthly amount dated to the claimed contribution month,
deletes the stored file and sets the proof's status to `approved`;
rejecting requires non-empty notes, creates zero Transactions, deletes the
file and sets the status to `rejected`. -/
theorem claim_C3_proof_processing :
    (∀ s adminId proofId notes now proof,
      isAdminCaller s adminId → proofId ≠ "" →
      findProof s proofId = some proof → proof.status = "pending" →
      (processPaymentProof s (some adminId) proofId "approved" notes now).1 =
          .ok "Proof successfully approved." ∧
        (processPaymentProof s (some adminId) proofId "approved" notes now).2.transactions =
          s.transactions ++
            [{ userId := some proof.userId, type := "deposit", amount := 500,
               description := "Monthly contribution for " ++
                 monthYearName proof.contributionMonth,
               userFullName := proof.userFullName,
               createdAt := proof.contributionMonth }] ∧
        (∃ p', findProof
            (processPaymentProof s (some adminId) proofId "approved" notes now).2 proofId =
              some p' ∧ p'.status = "approved") ∧
        (processPaymentProof s (some adminId) proofId "approved" notes now).2.storage =
          s.storage.filter (fun q => q ≠ proof.filePath)) ∧
    (∀ s adminId proofId n now proof,
      isAdminCaller s adminId → proofId ≠ "" → n ≠ "" →
      findProof s proofId = some proof → proof.status = "pending" →
      (processPaymentProof s (some adminId) proofId "rejected" (some n) now).1 =
          .ok "Proof successfully rejected." ∧
        (processPaymentProof s (some adminId) proofId "rejected" (some n) now).2.transactions =
          s.transactions ∧
        (∃ p', findProof
            (processPaymentProof s (some adminId) proofId "rejected" (some n) now).2 proofId =
              some p' ∧ p'.status = "rejected") ∧
        (processPaymentProof s (some adminId) proofId "rejected" (some n) now).2.storage =
          s.storage.filter (fun q => q ≠ proof.filePath)) ∧
    (∀ s c proofId notes now, (notes = none ∨ notes = some "") →
      ¬ (processPaymentProof s c proofId "rejected" notes now).1.isOk ∧
        (processPaymentProof s c proofId "rejected" notes now).2 = s) := by
  refine ⟨?_, ?_, ?_⟩
  · intro s adminId proofId notes now proof hA hId hP hS
    unfold processPaymentProof
    dsimp only
    rw [if_neg (not_not_intro hA), if_neg (by simp [hId]), if_neg (by simp), hP]
    dsimp only
    rw [if_neg (not_not_intro hS), if_pos rfl]
    refine ⟨rfl, rfl, ?_, rfl⟩
    have hP' : List.find? (fun p => p.id = proofId) s.proofs = some proof := hP
    have h := find?_ite_update (fun p => p.id) proofId
      (fun p =>
        { p with status := "approved",
                 notes := (match notes with | some n => some n | none => p.notes),
                 processedBy := some adminId, processedAt := some now })
      (fun _ => rfl) s.proofs
    rw [hP'] at h
    exact ⟨_, h, rfl⟩
  · intro s adminId proofId n now proof hA hId hn hP hS
    unfold processPaymentProof
    dsimp only
    rw [if_neg (not_not_intro hA), if_neg (by simp [hId]), if_neg (by simp [hn]), hP]
    dsimp only
    rw [if_neg (not_not_intro hS), if_neg (by decide)]
    refine ⟨rfl, rfl, ?_, rfl⟩
    have hP' : List.find? (fun p => p.id = proofId) s.proofs = some proof := hP
    have h := find?_ite_update (fun p => p.id) proofId
      (fun p =>
        { p with status := "rejected",
                 notes := (match some n with | some m => some m | none => p.notes),
                 processedBy := some adminId, processedAt := some now })
      (fun _ => rfl) s.proofs
    rw [hP'] at h
    exact ⟨_, h, rfl⟩
  · intro s c proofId notes now hE
    unfold processPaymentProof
    cases c with
    | none => exact ⟨by simp [Resp.isOk], rfl⟩
    | some uid =>
      dsimp only
      by_cases hA : isAdminCaller s uid
      · rw [if_neg (not_not_intro hA)]
        by_cases h1 : proofId = "" ∨ (("rejected" : String) ≠ "approved" ∧
            ("rejected" : String) ≠ "rejected")
        · rw [if_pos h1]
          exact ⟨by simp [Resp.isOk], rfl⟩
        · rw [if_neg h1, if_pos ⟨rfl, hE⟩]
          exact ⟨by simp [Resp.isOk], rfl⟩
      · rw [if_pos hA]
        exact ⟨by simp [adminOnlyResp, Resp.isOk], rfl⟩

/-- C3 witness: approving a concrete pending proof, and rejecting with
empty notes. -/
theorem claim_C3_proof_processing_witness :
    (isAdminCaller stateProofW "a1" ∧ "PP1" ≠ "" ∧
      findProof stateProofW "PP1" = some proofPendingW ∧
      proofPendingW.status = "pending" ∧
      ((processPaymentProof stateProofW (some "a1") "PP1" "approved" none nowW).1 =
          .ok "Proof successfully approved." ∧
        (processPaymentProof stateProofW (some "a1") "PP1" "approved" none nowW).2.transactions =
          stateProofW.transactions ++
            [{ userId := some proofPendingW.userId, type := "deposit", amount := 500,
               description := "Monthly contribution for " ++
                 monthYearName proofPendingW.contributionMonth,
               userFullName := proofPendingW.userFullName,
               createdAt := proofPendingW.contributionMonth }] ∧
        (∃ p', findProof
            (processPaymentProof stateProofW (some "a1") "PP1" "approved" none nowW).2 "PP1" =
              some p' ∧ p'.status = "approved") ∧
        (processPaymentProof stateProofW (some "a1") "PP1" "approved" none nowW).2.storage =
          stateProofW.storage.filter (fun q => q ≠ proofPendingW.filePath))) ∧
    ((some "" : Option String) = none ∨ (some "" : Option String) = some "" ) ∧
    (¬ (processPaymentProof stateProofW (some "a1") "PP1" "rejected" (some "") nowW).1.isOk ∧
      (processPaymentProof stateProofW (some "a1") "PP1" "rejected" (some "") nowW).2 =
        stateProofW) :=
  ⟨⟨by decide, by decide, by decide, by decide,
    claim_C3_proof_processing.1 stateProofW "a1" "PP1" none nowW proofPendingW
      (by decide) (by decide) (by decide) (by decide)⟩,
   Or.inr rfl,
   claim_C3_proof_processing.2.2 stateProofW (some "a1") "PP1" (some "") nowW
     (Or.inr rfl)⟩

/-! ## Claim C9: failed proof submission leaves no orphaned stored object -/

/-- C9: when the proof file upload succeeds but the `payment_proofs`
insert fails, `submit-payment-proof` removes the uploaded file before
returning the error: the storage bucket and the proofs table are left as
they were. -/
theorem claim_C9_insert_failure_cleanup (s : State) (uid fileName : String)
    (year month : Int) (nowMs : Nat) (newProofId : String) (profile : Profile)
    (hProf : findProfile s uid = some profile)
    (hFresh : (uid ++ "-" ++ toString nowMs ++ "." ++ fileExtOf fileName) ∉ s.storage) :
    ¬ (submitPaymentProof s (some uid) (some fileName) (some year) (some month)
        nowMs newProofId true false).1.isOk ∧
    (submitPaymentProof s (some uid) (some fileName) (some year) (some month)
        nowMs newProofId true false).2.storage = s.storage ∧
    (submitPaymentProof s (some uid) (some fileName) (some year) (some month)
        nowMs newProofId true false).2.proofs = s.proofs := by
  unfold submitPaymentProof
  dsimp only
  rw [hProf]
  dsimp only
  rw [if_neg (by simp)]
  rw [if_neg (by simp)]
  refine ⟨by simp [Resp.isOk], ?_, rfl⟩
  show ((s.storage ++ [uid ++ "-" ++ toString nowMs ++ "." ++ fileExtOf fileName]).filter
    (fun q => q ≠ uid ++ "-" ++ toString nowMs ++ "." ++ fileExtOf fileName)) = s.storage
  rw [List.filter_append]
  simp only [List.filter_cons, List.filter_nil]
  rw [if_neg (by simp)]
  rw [List.append_nil]
  rw [List.filter_eq_self]
  intro a ha
  simp only [ne_eq, decide_not, Bool.not_eq_true', decide_eq_false_iff_not]
  intro h
  exact hFresh (h ▸ ha)

/-- C9 witness: a concrete failed insert after a successful upload. -/
theorem claim_C9_insert_failure_cleanup_witness :
    findProfile stateDisburseW "u1" = some memberW ∧
    ("u1" ++ "-" ++ toString 1700 ++ "." ++ fileExtOf "me.png") ∉ stateDisburseW.storage ∧
    (¬ (submitPaymentProof stateDisburseW (some "u1") (some "me.png") (some 2024)
        (some 3) 1700 "pp9" true false).1.isOk ∧
      (submitPaymentProof stateDisburseW (some "u1") (some "me.png") (some 2024)
        (some 3) 1700 "pp9" true false).2.storage = stateDisburseW.storage ∧
      (submitPaymentProof stateDisburseW (some "u1") (some "me.png") (some 2024)
        (some 3) 1700 "pp9" true false).2.proofs = stateDisburseW.proofs) :=
  ⟨by decide, by decide,
   claim_C9_insert_failure_cleanup stateDisburseW "u1" "me.png" 2024 3 1700 "pp9"
     memberW (by decide) (by decide)⟩

/-! ## Claim C10: empty backfill range reports success with zero rows -/

/-- C10: invoked with a start month strictly after the end month, the bulk
backfill creates zero Transactions and returns a success response
reporting 0 contributions. -/
theorem claim_C10_empty_range (s : State) (adminId userId : String)
    (sy sm ey em : Int) (profile : Profile)
    (hA : isAdminCaller s adminId)
    (hProf : findProfile s userId = some profile)
    (hRange : (mkDate ey em 1).ym < (mkDate sy sm 1).ym) :
    adminBulkAddContributions s (some adminId) (some userId) (some sy) (some sm)
        (some ey) (some em) =
      (.ok "Successfully added 0 contributions.", s) := by
  unfold adminBulkAddContributions
  dsimp only
  rw [if_neg (not_not_intro hA)]
  rw [hProf]
  have hf : ((mkDate ey em 1).ym + 1 - (mkDate sy sm 1).ym).toNat = 0 := by
    omega
  rw [hf]
  dsimp only
  simp only [bulkLoop]
  rfl

/-- C10 witness: a concrete range with the start month after the end
month. -/
theorem claim_C10_empty_range_witness :
    isAdminCaller stateDisburseW "a1" ∧
    findProfile stateDisburseW "u1" = some memberW ∧
    (mkDate 2024 2 1).ym < (mkDate 2024 5 1).ym ∧
    adminBulkAddContributions stateDisburseW (some "a1") (some "u1") (some 2024)
        (some 5) (some 2024) (some 2) =
      (.ok "Successfully added 0 contributions.", stateDisburseW) :=
  ⟨by decide, by decide, by decide,
   claim_C10_empty_range stateDisburseW "a1" "u1" 2024 5 2024 2 memberW
     (by decide) (by decide) (by decide)⟩

/-! ## Claim C6: bulk backfill across an inclusive month range -/

theorem one_le_daysInMonth (ym : Int) : 1 ≤ daysInMonth ym := by
  unfold daysInMonth
  dsimp only
  split_ifs <;> omega

/-- Stepping one month from a first-of-month date lands on the next
month's first day. -/
theorem addMonths_one_day1 (ym : Int) :
    addMonths ⟨ym, 1⟩ 1 = ⟨ym + 1, 1⟩ := by
  unfold addMonths
  dsimp only
  rw [Nat.min_eq_left (one_le_daysInMonth (ym + 1))]

theorem dateLe_day1 (a b : Int) : dateLe ⟨a, 1⟩ ⟨b, 1⟩ = true ↔ a ≤ b := by
  simp [dateLe]
  omega

theorem monthsFromTo_eq_nil (a b : Int) (h : b < a) : monthsFromTo a b = [] := by
  unfold monthsFromTo
  have : (b + 1 - a).toNat = 0 := by omega
  rw [this]
  rfl

theorem monthsFromTo_cons (a b : Int) (h : a ≤ b) :
    monthsFromTo a b = a :: monthsFromTo (a + 1) b := by
  unfold monthsFromTo
  have h1 : (b + 1 - a).toNat = (b + 1 - (a + 1)).toNat + 1 := by omega
  rw [h1, List.range_succ_eq_map, List.map_cons, List.map_map]
  have e1 : a + Int.ofNat 0 = a := by simp
  rw [e1]
  refine congrArg (List.cons a) (List.map_congr_left ?_)
  intro i _
  show a + Int.ofNat (i + 1) = a + 1 + Int.ofNat i
  simp only [Int.ofNat_eq_coe]
  push_cast
  ring

theorem monthsFromTo_length (a b : Int) :
    (monthsFromTo a b).length = (b + 1 - a).toNat := by
  unfold monthsFromTo
  rw [List.length_map, List.length_range]

/-- What the `admin-bulk-add-contributions` loop does when the fuel is the
exact number of months from `curYm` through `endYm`: one contribution
Transaction per month in the range, and the final count is the number of
months. -/
theorem bulkLoop_spec (uid name : String) (endYm : Int) :
    ∀ (fuel : Nat) (s : State) (curYm : Int) (count : Nat),
      fuel = (endYm + 1 - curYm).toNat →
      (bulkLoop fuel s uid name ⟨curYm, 1⟩ ⟨endYm, 1⟩ count).1.transactions =
          s.transactions ++ (monthsFromTo curYm endYm).map (contribTxn uid name) ∧
      (bulkLoop fuel s uid name ⟨curYm, 1⟩ ⟨endYm, 1⟩ count).2 =
          count + (monthsFromTo curYm endYm).length := by
  intro fuel
  induction fuel with
  | zero =>
    intro s curYm count hfuel
    have hlt : endYm < curYm := by omega
    rw [monthsFromTo_eq_nil _ _ hlt]
    simp [bulkLoop]
  | succ fuel ih =>
    intro s curYm count hfuel
    have hle : curYm ≤ endYm := by omega
    simp only [bulkLoop]
    rw [if_pos ((dateLe_day1 curYm endYm).mpr hle), addMonths_one_day1]
    have hstep := ih (adminCreateTransaction s uid "deposit" 500
      ("Monthly contribution for " ++ monthYearName ⟨curYm, 1⟩) name ⟨curYm, 1⟩)
      (curYm + 1) (count + 1) (by omega)
    rw [monthsFromTo_cons _ _ hle]
    refine ⟨?_, ?_⟩
    · rw [hstep.1]
      show (s.transactions ++ [contribTxn uid name curYm]) ++
          (monthsFromTo (curYm + 1) endYm).map (contribTxn uid name) = _
      rw [List.append_assoc]
      rfl
    · rw [hstep.2, List.length_cons]
      omega

/-- C6: over an inclusive month range (start not after end) the bulk
backfill appends exactly one deposit Transaction of the fixed monthly
amount per month of the range, dated to that month's first day, and
reports the number of months it added. -/
theorem claim_C6_bulk_backfill (s : State) (adminId userId : String)
    (sy sm ey em : Int) (profile : Profile)
    (hA : isAdminCaller s adminId)
    (hProf : findProfile s userId = some profile)
    (hle : (mkDate sy sm 1).ym ≤ (mkDate ey em 1).ym) :
    (adminBulkAddContributions s (some adminId) (some userId) (some sy) (some sm)
        (some ey) (some em)).2.transactions =
      s.transactions ++
        (monthsFromTo (mkDate sy sm 1).ym (mkDate ey em 1).ym).map
          (contribTxn userId (fullName profile.firstName profile.lastName)) ∧
    (monthsFromTo (mkDate sy sm 1).ym (mkDate ey em 1).ym).length =
      ((mkDate ey em 1).ym + 1 - (mkDate sy sm 1).ym).toNat ∧
    (adminBulkAddContributions s (some adminId) (some userId) (some sy) (some sm)
        (some ey) (some em)).1 =
      .ok ("Successfully added " ++
        toString ((mkDate ey em 1).ym + 1 - (mkDate sy sm 1).ym).toNat ++
        " contributions.") := by
  unfold adminBulkAddContributions
  dsimp only
  rw [if_neg (not_not_intro hA)]
  rw [hProf]
  simp only [mkDate]
  have hspec := bulkLoop_spec userId (fullName profile.firstName profile.lastName)
    (ey * 12 + em) ((ey * 12 + em) + 1 - (sy * 12 + sm)).toNat s (sy * 12 + sm) 0 rfl
  refine ⟨hspec.1, monthsFromTo_length _ _, ?_⟩
  rw [hspec.2, Nat.zero_add, monthsFromTo_length]

/-- C6 witness: backfilling January through March 2024 creates the three
month-dated contributions. -/
theorem claim_C6_bulk_backfill_witness :
    isAdminCaller stateDisburseW "a1" ∧
    findProfile stateDisburseW "u1" = some memberW ∧
    (mkDate 2024 0 1).ym ≤ (mkDate 2024 2 1).ym ∧
    ((adminBulkAddContributions stateDisburseW (some "a1") (some "u1") (some 2024)
        (some 0) (some 2024) (some 2)).2.transactions =
      stateDisburseW.transactions ++
        (monthsFromTo (mkDate 2024 0 1).ym (mkDate 2024 2 1).ym).map
          (contribTxn "u1" (fullName memberW.firstName memberW.lastName)) ∧
    (monthsFromTo (mkDate 2024 0 1).ym (mkDate 2024 2 1).ym).length =
      ((mkDate 2024 2 1).ym + 1 - (mkDate 2024 0 1).ym).toNat ∧
    (adminBulkAddContributions stateDisburseW (some "a1") (some "u1") (some 2024)
        (some 0) (some 2024) (some 2)).1 =
      .ok ("Successfully added " ++
        toString ((mkDate 2024 2 1).ym + 1 - (mkDate 2024 0 1).ym).toNat ++
        " contributions.")) :=
  ⟨by decide, by decide, by decide,
   claim_C6_bulk_backfill stateDisburseW "a1" "u1" 2024 0 2024 2 memberW
     (by decide) (by decide) (by decide)⟩

/-! ## Claim C4: due date on approval

The claim says the stored due date equals the loan's issue date plus the
parsed repayment months.  The handler computes `addMonths(new Date(), n)`:
the months are added to the processing-time clock, not to the loan's
`created_at`.  The two differ whenever the loan is approved at a date
other than its issue date. -/

/-- C4 counterexample: a loan issued 10 January 2024 and approved on
2 May 2024 under the "5 Months" tier stores due date May 2024 + 5 months,
which is not January 2024 + 5 months. -/
theorem claim_C4_due_date_counterexample :
    loanPendingW.status = "pending" ∧
    findMonths tierW.repaymentInfo = some 5 ∧
    loanPendingW.createdAt ≠ nowW ∧
    (findLoan (processLoanRequest statePendingW (some "a1") "L1" "approved" "" nowW).2
        "L1").map (fun l => l.dueDate) = some (some (addMonths nowW 5)) ∧
    addMonths nowW 5 ≠ addMonths loanPendingW.createdAt 5 := by
  decide

/-- C4 as amended: when a pending loan is approved and the tier's
repayment-info text parses as `n Months`, the stored due date equals the
processing time (`new Date()` at approval) plus `n` months. -/
theorem claim_C4_due_date_from_processing_time (s : State) (adminId loanId rr : String)
    (now : DateYMD) (loan : Loan) (tier : LoanTier) (n : Nat)
    (hA : isAdminCaller s adminId)
    (hId : loanId ≠ "")
    (hL : findLoan s loanId = some loan)
    (hS : loan.status = "pending")
    (hT : findTier s loan.amount = some tier)
    (hM : findMonths tier.repaymentInfo = some n) :
    findLoan (processLoanRequest s (some adminId) loanId "approved" rr now).2 loanId =
      some { loan with status := "approved", processedBy := some adminId,
                       processedAt := some now,
                       dueDate := some (addMonths now (n : Int)) } := by
  unfold processLoanRequest
  dsimp only
  rw [if_neg (not_not_intro hA), if_neg (by simp [hId]), if_neg (by simp), hL]
  dsimp only
  rw [if_neg (not_not_intro hS), if_pos rfl, hT]
  dsimp only
  simp only [hM]
  unfold findLoan at hL
  have h := find?_ite_update (fun l => l.id) loanId
    (fun l => { l with status := "approved", processedBy := some adminId,
                       processedAt := some now,
                       dueDate := some (addMonths now (n : Int)) })
    (fun _ => rfl) s.loans
  rw [hL] at h
  exact h

/-- C4 amended-claim witness: the concrete instance of the amended
statement. -/
theorem claim_C4_due_date_from_processing_time_witness :
    isAdminCaller statePendingW "a1" ∧
    findLoan statePendingW "L1" = some loanPendingW ∧
    loanPendingW.status = "pending" ∧
    findTier statePendingW loanPendingW.amount = some tierW ∧
    findMonths tierW.repaymentInfo = some 5 ∧
    findLoan (processLoanRequest statePendingW (some "a1") "L1" "approved" "" nowW).2
        "L1" =
      some { loanPendingW with status := "approved", processedBy := some "a1",
                               processedAt := some nowW,
                               dueDate := some (addMonths nowW (5 : Int)) } :=
  ⟨by decide, by decide, by decide, by decide, by decide,
   claim_C4_due_date_from_processing_time statePendingW "a1" "L1" "" nowW loanPendingW
     tierW 5 (by decide) (by decide) (by decide) (by decide) (by decide) (by decide)⟩

/-! ## Claim C5: per-handler admin guards

The claim says every backend operation handler is guarded by an inline
admin-role check.  The `monthly-dues` and `export-users` handlers contain
no role check at all (and `monthly-dues` performs its balance write for
any caller), so the claim fails; the admin mutation handlers are guarded
as described. -/

/-- A caller whose stored role is not `admin` fails the inline check. -/
theorem not_isAdminCaller (s : State) (uid : String) (p : Profile)
    (hp : findProfile s uid = some p) (hr : p.role ≠ "admin") :
    ¬ isAdminCaller s uid := by
  rintro ⟨q, hq, hqr⟩
  rw [hp] at hq
  cases hq
  exact hr hqr

/-- C5 counterexample: a non-admin caller invokes `monthly-dues`; the
operation succeeds and mutates the member balances instead of aborting
with the fixed-shape 403 payload. -/
theorem claim_C5_admin_guard_counterexample :
    findProfile stateDisburseW "u1" = some memberW ∧
    memberW.role ≠ "admin" ∧
    (monthlyDues stateDisburseW (some "u1")).1 =
      .ok "Successfully updated outstanding amounts for all users by 500." ∧
    (monthlyDues stateDisburseW (some "u1")).2 ≠ stateDisburseW := by
  decide

/-- C5 as amended: the admin mutation handlers (`process-loan-request`,
`admin-disburse-loan`, `process-payment-proof`,
`admin-bulk-add-contributions`, `admin-create-loan`) are each guarded by
an inline admin-role check that returns the fixed-shape 403 payload and
performs no write when the caller's stored role is not `admin`; but
`monthly-dues` has no role check and applies its balance write for every
caller, and `export-users` has no role check and serves the full CSV to
every caller without writing. -/
theorem claim_C5_admin_guards_amended :
    (∀ s uid p loanId st rr now, findProfile s uid = some p → p.role ≠ "admin" →
      processLoanRequest s (some uid) loanId st rr now = (adminOnlyResp, s)) ∧
    (∀ s uid p loanId now, findProfile s uid = some p → p.role ≠ "admin" →
      adminDisburseLoan s (some uid) loanId now = (adminOnlyResp, s)) ∧
    (∀ s uid p proofId st notes now, findProfile s uid = some p → p.role ≠ "admin" →
      processPaymentProof s (some uid) proofId st notes now = (adminOnlyResp, s)) ∧
    (∀ s uid p u sy sm ey em, findProfile s uid = some p → p.role ≠ "admin" →
      adminBulkAddContributions s (some uid) u sy sm ey em = (adminOnlyResp, s)) ∧
    (∀ s uid p u amt r g st iss due nid now, findProfile s uid = some p →
      p.role ≠ "admin" →
      adminCreateLoan s (some uid) u amt r g st iss due nid now = (adminOnlyResp, s)) ∧
    (∀ s c, monthlyDues s c =
      (.ok "Successfully updated outstanding amounts for all users by 500.",
       incrementOutstandingAmounts s 500)) ∧
    (∀ s c c', (exportUsers s c).2 = s ∧ exportUsers s c = exportUsers s c') := by
  refine ⟨?_, ?_, ?_, ?_, ?_, ?_, ?_⟩
  · intro s uid p loanId st rr now hp hr
    unfold processLoanRequest
    dsimp only
    rw [if_pos (not_isAdminCaller s uid p hp hr)]
  · intro s uid p loanId now hp hr
    unfold adminDisburseLoan
    dsimp only
    rw [if_pos (not_isAdminCaller s uid p hp hr)]
  · intro s uid p proofId st notes now hp hr
    unfold processPaymentProof
    dsimp only
    rw [if_pos (not_isAdminCaller s uid p hp hr)]
  · intro s uid p u sy sm ey em hp hr
    unfold adminBulkAddContributions
    dsimp only
    rw [if_pos (not_isAdminCaller s uid p hp hr)]
  · intro s uid p u amt r g st iss due nid now hp hr
    unfold adminCreateLoan
    dsimp only
    rw [if_pos (not_isAdminCaller s uid p hp hr)]
  · intro s c
    rfl
  · intro s c c'
    exact ⟨rfl, rfl⟩

/-- C5 amended-claim witness: a concrete non-admin caller is turned away
by `admin-disburse-loan` with the fixed payload and no state change. -/
theorem claim_C5_admin_guards_amended_witness :
    findProfile stateDisburseW "u1" = some memberW ∧
    memberW.role ≠ "admin" ∧
    adminDisburseLoan stateDisburseW (some "u1") "L1" nowW =
      (adminOnlyResp, stateDisburseW) :=
  ⟨by decide, by decide,
   claim_C5_admin_guards_amended.2.1 stateDisburseW "u1" memberW "L1" nowW
     (by decide) (by decide)⟩

/-! ## Claim C7: historical loan creation

The claim says the historical create allows inserting a loan directly
into any status.  The handler's validation list is `pending, in-process,
rejected, closed`: the status `approved` is rejected with a 400 error, so
"any status" fails; for `in-process`/`closed` the disbursement side
effects do apply, dated to the supplied issue date. -/

/-- Replacing the loans table does not change a tier lookup. -/
theorem findTier_set_loans (s : State) (L : List Loan) (a : Int) :
    findTier { s with loans := L } a = findTier s a := rfl

/-- Replacing the loans table does not change a profile lookup. -/
theorem findProfile_set_loans (s : State) (L : List Loan) (uid : String) :
    findProfile { s with loans := L } uid = findProfile s uid := rfl

/-- C7 counterexample: an admin attempt to insert a historical loan with
initial status `approved` is rejected by the field validation, so the
operation does not accept every status. -/
theorem claim_C7_historical_create_counterexample :
    isAdminCaller stateDisburseW "a1" ∧
    adminCreateLoan stateDisburseW (some "a1") "u1" 5000 (some "old loan") "g1"
        "approved" (some (mkDate 2023 6 1)) none "L9" nowW =
      (.err 400 "Missing or invalid required fields.", stateDisburseW) := by
  decide

/-- C7 as amended: the historical create accepts exactly the statuses
`pending`, `in-process`, `rejected`, `closed` (an `approved` initial
status is rejected with a validation error and no write); when the
initial status is `in-process` or `closed` it applies the disbursement
side effects — outstanding increased by `amount + fine` and two
withdrawal Transactions (one personal, one public) dated to the supplied
issue date; when it is `pending` or `rejected` the row is inserted with
no balance effect and no transactions. -/
theorem claim_C7_historical_create_amended :
    (∀ s uid u amt r g iss due nid now, isAdminCaller s uid →
      adminCreateLoan s (some uid) u amt r g "approved" iss due nid now =
        (.err 400 "Missing or invalid required fields.", s)) ∧
    (∀ s uid u amt r g st issv due nid now tier p,
      isAdminCaller s uid → u ≠ "" → amt ≠ 0 → g ≠ "" →
      (st = "in-process" ∨ st = "closed") →
      findTier s amt = some tier →
      findProfile s u = some p →
      (adminCreateLoan s (some uid) u amt r g st (some issv) due nid now).1 =
          .ok "Loan created successfully" ∧
        findProfile (adminCreateLoan s (some uid) u amt r g st (some issv) due nid
            now).2 u =
          some { p with outstanding := p.outstanding + (amt + tier.fine) } ∧
        (∃ d n, (adminCreateLoan s (some uid) u amt r g st (some issv) due nid
            now).2.transactions =
          s.transactions ++
            [{ userId := some u, type := "withdrawal", amount := amt,
               description := d, userFullName := n, createdAt := issv },
             { userId := none, type := "withdrawal", amount := amt,
               description := "Loan", userFullName := n, createdAt := issv }]) ∧
        (∃ nl, (adminCreateLoan s (some uid) u amt r g st (some issv) due nid
            now).2.loans = s.loans ++ [nl] ∧
          nl.status = st ∧ nl.createdAt = issv)) ∧
    (∀ s uid u amt r g st issv due nid now,
      isAdminCaller s uid → u ≠ "" → amt ≠ 0 → g ≠ "" →
      (st = "pending" ∨ st = "rejected") →
      (adminCreateLoan s (some uid) u amt r g st (some issv) due nid now).1 =
          .ok "Loan created successfully" ∧
        (∃ nl, (adminCreateLoan s (some uid) u amt r g st (some issv) due nid
            now).2.loans = s.loans ++ [nl] ∧
          nl.status = st ∧ nl.createdAt = issv) ∧
        (adminCreateLoan s (some uid) u amt r g st (some issv) due nid
            now).2.transactions = s.transactions ∧
        (adminCreateLoan s (some uid) u amt r g st (some issv) due nid
            now).2.profiles = s.profiles) := by
  refine ⟨?_, ?_, ?_⟩
  · intro s uid u amt r g iss due nid now hA
    unfold adminCreateLoan
    dsimp only
    rw [if_neg (not_not_intro hA)]
    cases iss with
    | none => rfl
    | some issv =>
      dsimp only
      rw [if_pos (Or.inr (Or.inr (Or.inr (by refine ⟨by decide, by decide, by decide, by decide⟩))))]
  · intro s uid u amt r g st issv due nid now tier p hA hu hamt hg hSt hT hP
    unfold adminCreateLoan
    dsimp only
    rw [if_neg (not_not_intro hA)]
    have hval : ¬ (u = "" ∨ amt = 0 ∨ g = "" ∨
        (st ≠ "pending" ∧ st ≠ "in-process" ∧ st ≠ "rejected" ∧ st ≠ "closed")) := by
      rcases hSt with h | h <;> simp [hu, hamt, hg, h]
    rw [if_neg hval, if_pos hSt, findTier_set_loans, hT]
    dsimp only
    refine ⟨rfl, ?_, ⟨_, _, rfl⟩, ⟨_, rfl, rfl, rfl⟩⟩
    exact findProfile_increment_found _ u (amt + tier.fine) p hP
  · intro s uid u amt r g st issv due nid now hA hu hamt hg hSt
    unfold adminCreateLoan
    dsimp only
    rw [if_neg (not_not_intro hA)]
    have hval : ¬ (u = "" ∨ amt = 0 ∨ g = "" ∨
        (st ≠ "pending" ∧ st ≠ "in-process" ∧ st ≠ "rejected" ∧ st ≠ "closed")) := by
      rcases hSt with h | h <;> simp [hu, hamt, hg, h]
    have hnfin : ¬ (st = "in-process" ∨ st = "closed") := by
      rcases hSt with h | h <;> simp [h]
    rw [if_neg hval, if_neg hnfin]
    exact ⟨rfl, ⟨_, rfl, rfl, rfl⟩, rfl, rfl⟩

/-- C7 amended-claim witness: inserting a concrete `closed` historical
loan applies the disbursement side effects, and inserting a concrete
`pending` one leaves balances and transactions untouched. -/
theorem claim_C7_historical_create_amended_witness :
    isAdminCaller stateDisburseW "a1" ∧
    findTier stateDisburseW 5000 = some tierW ∧
    findProfile stateDisburseW "u1" = some memberW ∧
    ((adminCreateLoan stateDisburseW (some "a1") "u1" 5000 (some "old loan") "g1"
        "closed" (some (mkDate 2023 6 1)) none "L9" nowW).1 =
        .ok "Loan created successfully" ∧
      findProfile (adminCreateLoan stateDisburseW (some "a1") "u1" 5000
          (some "old loan") "g1" "closed" (some (mkDate 2023 6 1)) none "L9" nowW).2
          "u1" =
        some { memberW with outstanding := memberW.outstanding + (5000 + tierW.fine) } ∧
      (∃ d n, (adminCreateLoan stateDisburseW (some "a1") "u1" 5000 (some "old loan")
          "g1" "closed" (some (mkDate 2023 6 1)) none "L9" nowW).2.transactions =
        stateDisburseW.transactions ++
          [{ userId := some "u1", type := "withdrawal", amount := 5000,
             description := d, userFullName := n, createdAt := mkDate 2023 6 1 },
           { userId := none, type := "withdrawal", amount := 5000,
             description := "Loan", userFullName := n,
             createdAt := mkDate 2023 6 1 }]) ∧
      (∃ nl, (adminCreateLoan stateDisburseW (some "a1") "u1" 5000 (some "old loan")
          "g1" "closed" (some (mkDate 2023 6 1)) none "L9" nowW).2.loans =
        stateDisburseW.loans ++ [nl] ∧
        nl.status = "closed" ∧ nl.createdAt = mkDate 2023 6 1)) ∧
    ((adminCreateLoan stateDisburseW (some "a1") "u1" 5000 (some "next month") "g1"
        "pending" (some (mkDate 2024 3 1)) none "L8" nowW).1 =
        .ok "Loan created successfully" ∧
      (∃ nl, (adminCreateLoan stateDisburseW (some "a1") "u1" 5000 (some "next month")
          "g1" "pending" (some (mkDate 2024 3 1)) none "L8" nowW).2.loans =
        stateDisburseW.loans ++ [nl] ∧
        nl.status = "pending" ∧ nl.createdAt = mkDate 2024 3 1) ∧
      (adminCreateLoan stateDisburseW (some "a1") "u1" 5000 (some "next month") "g1"
          "pending" (some (mkDate 2024 3 1)) none "L8" nowW).2.transactions =
        stateDisburseW.transactions ∧
      (adminCreateLoan stateDisburseW (some "a1") "u1" 5000 (some "next month") "g1"
          "pending" (some (mkDate 2024 3 1)) none "L8" nowW).2.profiles =
        stateDisburseW.profiles) :=
  ⟨by decide, by decide, by decide,
   claim_C7_historical_create_amended.2.1 stateDisburseW "a1" "u1" 5000
     (some "old loan") "g1" "closed" (mkDate 2023 6 1) none "L9" nowW tierW memberW
     (by decide) (by decide) (by decide) (by decide) (Or.inr rfl) (by decide)
     (by decide),
   claim_C7_historical_create_amended.2.2 stateDisburseW "a1" "u1" 5000
     (some "next month") "g1" "pending" (mkDate 2024 3 1) none "L8" nowW
     (by decide) (by decide) (by decide) (by decide) (Or.inl rfl)⟩

/-! ## Claim C8: CSV export round trip

One-step behaviour of the parser scan, then: scanning one escaped cell,
one escaped row, all rows, and finally the round trip through `toCsv`. -/

theorem string_mk_data (s : String) : (⟨s.data⟩ : String) = s := rfl

theorem csvGo_nil (inQ : Bool) (fld : List Char) (rec : List (List Char))
    (recs : List (List (List Char))) :
    csvGo inQ [] fld rec recs =
      if fld = [] ∧ rec = [] then recs.reverse
      else ((fld :: rec).reverse :: recs).reverse := by
  rw [csvGo.eq_def]

theorem csvGo_comma (cs fld : List Char) (rec : List (List Char))
    (recs : List (List (List Char))) :
    csvGo false (',' :: cs) fld rec recs = csvGo false cs [] (fld :: rec) recs := by
  rw [csvGo.eq_def]
  simp

theorem csvGo_newline (cs fld : List Char) (rec : List (List Char))
    (recs : List (List (List Char))) :
    csvGo false ('\n' :: cs) fld rec recs =
      csvGo false cs [] [] ((fld :: rec).reverse :: recs) := by
  rw [csvGo.eq_def]
  simp

theorem csvGo_plain (c : Char) (cs fld : List Char) (rec : List (List Char))
    (recs : List (List (List Char)))
    (hq : c ≠ '"') (hc : c ≠ ',') (hn : c ≠ '\n') :
    csvGo false (c :: cs) fld rec recs = csvGo false cs (fld ++ [c]) rec recs := by
  rw [csvGo.eq_def]
  simp [hq, hc, hn]

theorem csvGo_openQuote (cs : List Char) (rec : List (List Char))
    (recs : List (List (List Char))) :
    csvGo false ('"' :: cs) [] rec recs = csvGo true cs [] rec recs := by
  rw [csvGo.eq_def]
  simp

theorem csvGo_quotedChar (c : Char) (cs fld : List Char) (rec : List (List Char))
    (recs : List (List (List Char))) (hq : c ≠ '"') :
    csvGo true (c :: cs) fld rec recs = csvGo true cs (fld ++ [c]) rec recs := by
  rw [csvGo.eq_def]
  simp [hq]

theorem csvGo_escapedQuote (cs fld : List Char) (rec : List (List Char))
    (recs : List (List (List Char))) :
    csvGo true ('"' :: '"' :: cs) fld rec recs =
      csvGo true cs (fld ++ ['"']) rec recs := by
  rw [csvGo.eq_def]
  simp

theorem csvGo_closeQuote_nil (fld : List Char) (rec : List (List Char))
    (recs : List (List (List Char))) :
    csvGo true ['"'] fld rec recs = csvGo false [] fld rec recs := by
  rw [csvGo.eq_def]
  simp

theorem csvGo_closeQuote_cons (c2 : Char) (cs fld : List Char)
    (rec : List (List Char)) (recs : List (List (List Char))) (h2 : c2 ≠ '"') :
    csvGo true ('"' :: c2 :: cs) fld rec recs = csvGo false (c2 :: cs) fld rec recs := by
  rw [csvGo.eq_def]
  simp only [if_true]

theorem doubleQuotes_cons_quote (t : List Char) :
    doubleQuotes ('"' :: t) = '"' :: '"' :: doubleQuotes t := by
  simp [doubleQuotes]

theorem doubleQuotes_cons (c : Char) (t : List Char) (hc : c ≠ '"') :
    doubleQuotes (c :: t) = c :: doubleQuotes t := by
  simp [doubleQuotes, hc]

/-- Scanning an unquoted cell accumulates its characters. -/
theorem csvGo_scanPlain :
    ∀ (l : List Char), l.contains ',' = false → l.contains '"' = false →
      l.contains '\n' = false →
      ∀ (rest fld : List Char) (rec : List (List Char))
        (recs : List (List (List Char))),
        csvGo false (l ++ rest) fld rec recs = csvGo false rest (fld ++ l) rec recs
  | [], _, _, _ => by intro rest fld rec recs; simp
  | c :: t, h1, h2, h3 => by
    intro rest fld rec recs
    simp only [List.contains_cons, Bool.or_eq_false_iff, beq_eq_false_iff_ne] at h1 h2 h3
    rw [List.cons_append,
      csvGo_plain c (t ++ rest) fld rec recs (Ne.symm h2.1) (Ne.symm h1.1) (Ne.symm h3.1),
      csvGo_scanPlain t h1.2 h2.2 h3.2 rest (fld ++ [c]) rec recs,
      List.append_assoc]
    rfl

/-- Scanning the quote-doubled image of a cell inside quotes accumulates
the original characters, up to the closing quote. -/
theorem csvGo_scanQuoted :
    ∀ (l rest fld : List Char) (rec : List (List Char))
      (recs : List (List (List Char))),
      rest.head? ≠ some '"' →
      csvGo true (doubleQuotes l ++ '"' :: rest) fld rec recs =
        csvGo false rest (fld ++ l) rec recs
  | [], rest, fld, rec, recs => by
    intro hrest
    cases rest with
    | nil => simp [doubleQuotes, csvGo_closeQuote_nil]
    | cons r rs =>
      have hr : r ≠ '"' := by
        intro h
        exact hrest (by simp [h])
      simp [doubleQuotes, csvGo_closeQuote_cons r rs fld rec recs hr]
  | c :: t, rest, fld, rec, recs => by
    intro hrest
    by_cases hc : c = '"'
    · subst hc
      rw [doubleQuotes_cons_quote, List.cons_append, List.cons_append,
        csvGo_escapedQuote, csvGo_scanQuoted t rest (fld ++ ['"']) rec recs hrest,
        List.append_assoc]
      rfl
    · rw [doubleQuotes_cons c t hc, List.cons_append,
        csvGo_quotedChar c _ fld rec recs hc,
        csvGo_scanQuoted t rest (fld ++ [c]) rec recs hrest, List.append_assoc]
      rfl

/-- Scanning one escaped cell from the start of a field accumulates
exactly the cell's value. -/
theorem csvGo_scanCell (v rest : List Char) (rec : List (List Char))
    (recs : List (List (List Char))) (hrest : rest.head? ≠ some '"') :
    csvGo false (escChars v ++ rest) [] rec recs = csvGo false rest v rec recs := by
  unfold escChars
  by_cases hq : (v.contains ',' || v.contains '"' || v.contains '\n') = true
  · rw [if_pos hq]
    show csvGo false ('"' :: (doubleQuotes v ++ ['"'] ++ rest)) [] rec recs = _
    rw [csvGo_openQuote, List.append_assoc]
    exact csvGo_scanQuoted v rest [] rec recs hrest
  · rw [if_neg hq]
    simp only [Bool.or_eq_true, not_or, Bool.not_eq_true] at hq
    exact csvGo_scanPlain v hq.1.1 hq.1.2 hq.2 rest [] rec recs

/-- Scanning one escaped row up to a newline commits exactly that row. -/
theorem csvGo_scanRowNL :
    ∀ (fs : List (List Char)), fs ≠ [] →
      ∀ (rest : List Char) (rec : List (List Char))
        (recs : List (List (List Char))),
        csvGo false (joinSep ',' (fs.map escChars) ++ '\n' :: rest) [] rec recs =
          csvGo false rest [] [] ((rec.reverse ++ fs) :: recs)
  | [], h, _, _, _ => absurd rfl h
  | [f], _, rest, rec, recs => by
    show csvGo false (escChars f ++ '\n' :: rest) [] rec recs = _
    rw [csvGo_scanCell f ('\n' :: rest) rec recs (by simp), csvGo_newline]
    simp
  | f :: f2 :: fs, _, rest, rec, recs => by
    show csvGo false ((escChars f ++ ',' :: joinSep ',' ((f2 :: fs).map escChars)) ++
        '\n' :: rest) [] rec recs = _
    rw [List.append_assoc]
    rw [csvGo_scanCell f _ rec recs (by simp)]
    show csvGo false (',' :: (joinSep ',' ((f2 :: fs).map escChars) ++ '\n' :: rest))
        f rec recs = _
    rw [csvGo_comma,
      csvGo_scanRowNL (f2 :: fs) (by simp) rest (f :: rec) recs]
    simp

/-- Scanning one escaped row at the end of input commits that row, when
the record under construction is already non-empty. -/
theorem csvGo_scanRowEndAux :
    ∀ (fs : List (List Char)), fs ≠ [] →
      ∀ (rec : List (List Char)) (recs : List (List (List Char))), rec ≠ [] →
        csvGo false (joinSep ',' (fs.map escChars)) [] rec recs =
          ((rec.reverse ++ fs) :: recs).reverse
  | [], h, _, _, _ => absurd rfl h
  | [f], _, rec, recs, hrec => by
    have h := csvGo_scanCell f [] rec recs (by simp)
    rw [List.append_nil] at h
    show csvGo false (escChars f) [] rec recs = _
    rw [h, csvGo_nil, if_neg (by simp [hrec])]
    simp
  | f :: f2 :: fs, _, rec, recs, hrec => by
    show csvGo false (escChars f ++ ',' :: joinSep ',' ((f2 :: fs).map escChars))
        [] rec recs = _
    rw [csvGo_scanCell f _ rec recs (by simp), csvGo_comma,
      csvGo_scanRowEndAux (f2 :: fs) (by simp) (f :: rec) recs (by simp)]
    simp

/-- Scanning a two-or-more-cell escaped row at the end of input commits
that row. -/
theorem csvGo_scanRowEnd (f1 f2 : List Char) (fs : List (List Char))
    (recs : List (List (List Char))) :
    csvGo false (joinSep ',' ((f1 :: f2 :: fs).map escChars)) [] [] recs =
      ((f1 :: f2 :: fs) :: recs).reverse := by
  show csvGo false (escChars f1 ++ ',' :: joinSep ',' ((f2 :: fs).map escChars))
      [] [] recs = _
  rw [csvGo_scanCell f1 _ [] recs (by simp), csvGo_comma,
    csvGo_scanRowEndAux (f2 :: fs) (by simp) [f1] recs (by simp)]
  simp

/-- Scanning all escaped rows (each with at least two cells) appends them
to the accumulated records. -/
theorem csvGo_scanRows :
    ∀ (rows : List (List (List Char))), rows ≠ [] →
      (∀ r ∈ rows, 2 ≤ r.length) →
      ∀ recs : List (List (List Char)),
        csvGo false (joinSep '\n' (rows.map (fun r => joinSep ',' (r.map escChars))))
            [] [] recs =
          recs.reverse ++ rows
  | [], h, _, _ => absurd rfl h
  | [r], _, hlen, recs => by
    cases r with
    | nil => exact absurd (hlen [] (by simp)) (by simp)
    | cons f1 r1 =>
      cases r1 with
      | nil =>
        have := hlen [f1] (by simp)
        simp at this
      | cons f2 fs =>
        show csvGo false (joinSep ',' ((f1 :: f2 :: fs).map escChars)) [] [] recs = _
        rw [csvGo_scanRowEnd]
        simp
  | r :: r2 :: rows, _, hlen, recs => by
    have hr : r ≠ [] := by
      have := hlen r (by simp)
      intro h
      rw [h] at this
      simp at this
    show csvGo false ((joinSep ',' (r.map escChars) ++
        '\n' :: joinSep '\n' ((r2 :: rows).map
          (fun r => joinSep ',' (r.map escChars))))) [] [] recs = _
    rw [csvGo_scanRowNL r hr _ [] recs]
    simp only [List.reverse_nil, List.nil_append]
    rw [csvGo_scanRows (r2 :: rows) (by simp) (fun q hq => hlen q (by simp [hq]))
      (r :: recs)]
    simp

/-- `String.mk` inverts the `String.data` views of a row of cells. -/
theorem map_mk_data : ∀ row : List String,
    (row.map String.data).map (fun f => (⟨f⟩ : String)) = row
  | [] => rfl
  | s :: t => by
    simp only [List.map_cons]
    rw [map_mk_data t, string_mk_data]

/-- `String.mk` inverts the `String.data` views of a table of cells. -/
theorem map_map_mk_data : ∀ l : List (List String),
    (l.map (fun row => row.map String.data)).map
      (fun q => q.map (fun f => (⟨f⟩ : String))) = l
  | [] => rfl
  | a :: t => by
    simp only [List.map_cons]
    rw [map_mk_data a, map_map_mk_data t]

/-- Escaping rows of strings, seen at the character level. -/
theorem rowsEsc_eq (data : List (List String)) :
    data.map (fun row => joinSep ',' (row.map (fun v => escChars v.data))) =
      (data.map (fun row => row.map String.data)).map
        (fun q => joinSep ',' (q.map escChars)) := by
  simp only [List.map_map]
  refine List.map_congr_left (fun a _ => ?_)
  show joinSep ',' (a.map (fun v => escChars v.data)) =
    joinSep ',' ((a.map String.data).map escChars)
  rw [List.map_map]
  exact congrArg (joinSep ',') (List.map_congr_left (fun v _ => rfl))

/-- C8: exporting any list of transaction records with `toCsv` and
re-parsing the text reproduces the header and every cell value exactly,
embedded commas, quotes and newlines included. -/
theorem claim_C8_csv_roundtrip (records : List TxnRecord) :
    parseCsv (toCsv (records.map txnRecordFields) txColumns) =
      txColumns :: records.map txnRecordFields := by
  show (csvGo false
      (joinSep ',' (txColumns.map String.data) ++
        '\n' :: joinSep '\n' ((records.map txnRecordFields).map
          (fun row => joinSep ',' (row.map (fun v => escChars v.data)))))
      [] [] []).map (fun r => r.map (fun f => (⟨f⟩ : String))) =
    txColumns :: records.map txnRecordFields
  rw [show joinSep ',' (txColumns.map String.data) =
    joinSep ',' ((txColumns.map String.data).map escChars) from rfl]
  cases records with
  | nil =>
    rw [csvGo_scanRowNL (txColumns.map String.data) (by decide)
      (joinSep '\n' ((([] : List TxnRecord).map txnRecordFields).map
        (fun row => joinSep ',' (row.map (fun v => escChars v.data))))) [] []]
    show (csvGo false [] [] [] _).map _ = _
    rw [csvGo_nil, if_pos ⟨rfl, rfl⟩]
    show [(txColumns.map String.data).map (fun f => (⟨f⟩ : String))] = [txColumns]
    rw [map_mk_data txColumns]
  | cons r rs =>
    rw [rowsEsc_eq]
    rw [csvGo_scanRowNL (txColumns.map String.data) (by decide) _ [] []]
    simp only [List.reverse_nil, List.nil_append]
    rw [csvGo_scanRows
      (((r :: rs).map txnRecordFields).map (fun row => row.map String.data))
      (by simp) ?hlen [txColumns.map String.data]]
    case hlen =>
      intro q hq
      simp only [List.mem_map] at hq
      obtain ⟨row, hrow, rfl⟩ := hq
      obtain ⟨x, hx, rfl⟩ := hrow
      simp [txnRecordFields]
    simp only [List.reverse_cons, List.reverse_nil, List.nil_append,
      List.map_cons, List.singleton_append]
    rw [map_mk_data txColumns, map_mk_data (txnRecordFields r),
      map_map_mk_data (rs.map txnRecordFields)]

end ChitFund
